import Mathlib

/-!
Verification of the investigative-agent batch pipeline
(src/src/agent/investigator.py) against its specification.

The Python code is shallowly embedded: external effects (HTTP, PDF
parsing, LLM completions, the process environment) are parameters, and
the control flow of each Python function is mirrored by a pure Lean
function.  Calls to the collaborator functions inside process_batch
are recorded in an explicit event trace, so that claims about which
collaborators run, and how often, can be stated and proved.
-/

namespace Investigator

/-- An HTTP response as seen by fetch_pdf: a status code and a body of
raw bytes (modelled as a list of byte values). -/
structure HttpResponse where
  status : Nat
  body : List Nat
  deriving DecidableEq

/-- A parsed PDF document as produced by PyPDF2.PdfReader: the ordered
list of its pages, the page type left abstract. -/
structure PdfReader (Page : Type) where
  pages : List Page
  deriving DecidableEq

/-- The two exceptions fetch_pdf raises, identified by the message
they carry (the Python code raises bare Exception values whose only
content is the formatted message). -/
inductive FetchErr where
  | fetchFailed (url : String)
  | extractFailed (detail : String)
  deriving DecidableEq

/-- The message string carried by each fetch_pdf exception, exactly as
formatted in the source. -/
def FetchErr.message : FetchErr → String
  | .fetchFailed url => "Failed to fetch PDF from " ++ url
  | .extractFailed detail => "Failed to extract text from PDF: " ++ detail

/-- Shallow embedding of InvestigativeAgent.fetch_pdf.  httpGet models
the aiohttp GET (URL to response), pdfReaderOf models the
PyPDF2.PdfReader constructor applied to the response body (failing
with the stringified underlying exception), and extract_text models
page.extract_text().  The page loop accumulating
text += page.extract_text() over pdf_reader.pages is the fold. -/
def fetch_pdf {Page : Type} (httpGet : String → HttpResponse)
    (pdfReaderOf : List Nat → Except String (PdfReader Page))
    (extract_text : Page → String) (url : String) : Except FetchErr String :=
  let response := httpGet url
  if response.status ≠ 200 then
    Except.error (FetchErr.fetchFailed url)
  else
    match pdfReaderOf response.body with
    | Except.error e => Except.error (FetchErr.extractFailed e)
    | Except.ok pdf_reader =>
        Except.ok (pdf_reader.pages.foldl (fun text page => text ++ extract_text page) "")

/-- Python truthiness of an optional string: None and the empty string
are falsy, every other string is truthy. -/
def pyTruthy : Option String → Bool
  | none => false
  | some s => s != ""

/-- Shallow embedding of the credential check at the top of
InvestigativeAgent.__init__: read OPENROUTER_API_KEY from the
environment (getenv models os.getenv after load_dotenv) and raise
ValueError when it is falsy; on success the key is retained.  The
remainder of __init__ only builds third-party client objects and is
out of scope. -/
def initApiKey (getenv : String → Option String) : Except String String :=
  let api_key := getenv "OPENROUTER_API_KEY"
  if pyTruthy api_key then
    Except.ok (api_key.getD "")
  else
    Except.error "OPENROUTER_API_KEY environment variable not set"

/-- The batch partition used by process_batch.  Python iterates
for i in range(0, len(pdf_urls), 3) and slices pdf_urls[i:i+3]:
range(0, n, 3) has (n + 2) / 3 elements 0, 3, 6, ..., and the slice
is drop i followed by take 3. -/
def batches (pdf_urls : List α) : List (List α) :=
  (List.range' 0 ((pdf_urls.length + 2) / 3) 3).map
    (fun i => (pdf_urls.drop i).take 3)

theorem batches_nil : batches ([] : List α) = [] := by
  simp [batches]

theorem length_batches (l : List α) : (batches l).length = (l.length + 2) / 3 := by
  simp [batches]

theorem batches_cons (a : α) (l : List α) :
    batches (a :: l) = (a :: l).take 3 :: batches ((a :: l).drop 3) := by
  have hlen : ((a :: l).length + 2) / 3 = (((a :: l).drop 3).length + 2) / 3 + 1 := by
    simp only [List.length_drop, List.length_cons]
    omega
  unfold batches
  rw [hlen, List.range'_succ]
  rw [show (0 + 3 : Nat) = 3 + 0 from rfl,
    ← List.map_add_range' 3 0 ((((a :: l).drop 3).length + 2) / 3) 3]
  simp only [List.map_cons, List.map_map, List.drop_zero]
  refine congrArg₂ List.cons rfl (List.map_congr_left ?_)
  intro i _
  simp only [Function.comp_apply]
  rw [List.drop_drop]

theorem join_batches_fuel :
    ∀ (n : Nat) (l : List α), l.length ≤ n → (batches l).flatten = l := by
  intro n
  induction n with
  | zero =>
    intro l hl
    have hnil : l = [] := List.eq_nil_of_length_eq_zero (Nat.le_zero.mp hl)
    subst hnil
    simp [batches_nil]
  | succ n ih =>
    intro l hl
    cases l with
    | nil => simp [batches_nil]
    | cons a t =>
      rw [batches_cons, List.flatten_cons,
        ih ((a :: t).drop 3) (by simp only [List.length_drop, List.length_cons] at *; omega)]
      exact List.take_append_drop 3 (a :: t)

theorem join_batches (l : List α) : (batches l).flatten = l :=
  join_batches_fuel l.length l (Nat.le_refl _)

theorem batch_length_le (l : List α) : ∀ b ∈ batches l, b.length ≤ 3 := by
  intro b hb
  obtain ⟨i, -, rfl⟩ := List.mem_map.mp hb
  simp only [List.length_take]
  omega

/-- One findings entry accumulated by process_batch for a batch: the
Python dict with keys batch_results and connections. -/
structure Finding where
  batch_results : List String
  connections : String
  deriving DecidableEq

/-- The collaborators process_batch calls, supplied as oracles:
fetch models self.fetch_pdf seen from the orchestrator (document text
on success, the exception message on failure); analyze models
self.analyze_document (two chained LLM completions); agentRun models
self.agent.arun inside find_connections; reportChain models
self.report_chain.arun inside generate_report; strFinding models the
Python str() rendering of a findings dict. -/
structure Agent where
  fetch : String → Except String String
  analyze : String → Except String String
  agentRun : String → String
  reportChain : String → String
  strFinding : Finding → String

/-- The observable calls process_batch makes, in program order:
invocations of fetch_pdf, analyze_document, find_connections and
generate_report, and the diagnostic print in the except clause. -/
inductive Event where
  | fetchCall (url : String)
  | analyzeCall (text : String)
  | findConnectionsCall (documents : List String)
  | generateReportCall (findings : List Finding)
  | printLine (line : String)
  deriving DecidableEq

def Event.isFindConnectionsCall : Event → Bool
  | .findConnectionsCall _ => true
  | _ => false

def Event.isGenerateReportCall : Event → Bool
  | .generateReportCall _ => true
  | _ => false

/-- Shallow embedding of find_connections: join the string forms of
the documents with blank lines and submit one agent prompt.  At its
call site the documents are the analysis strings of one batch, so the
Python str(doc) is the identity on them. -/
def find_connections (A : Agent) (documents : List String) : String :=
  A.agentRun
    ("Analyze these documents and identify connections, patterns, and relationships between them: "
      ++ String.intercalate "\n\n" documents)

/-- Shallow embedding of generate_report: join the str() forms of the
findings with blank lines and run the report chain on the result. -/
def generate_report (A : Agent) (findings : List Finding) : String :=
  A.reportChain (String.intercalate "\n\n" (findings.map A.strFinding))

/-- The value process_batch returns: either the report string from
generate_report, or the Python dict mapping the key error to the
given message. -/
inductive PyVal where
  | reportStr (s : String)
  | errorDict (msg : String)
  deriving DecidableEq

/-- The body of the per-URL try block in process_batch: fetch_pdf,
then analyze_document; any exception is caught, the diagnostic is
printed and the URL yields no result.  Returns the events emitted for
this URL and the analysis on success. -/
def processUrl (A : Agent) (url : String) : List Event × Option String :=
  match A.fetch url with
  | Except.error e =>
      ([Event.fetchCall url,
        Event.printLine ("Error processing document " ++ url ++ ": " ++ e)], none)
  | Except.ok document_text =>
      match A.analyze document_text with
      | Except.error e =>
          ([Event.fetchCall url, Event.analyzeCall document_text,
            Event.printLine ("Error processing document " ++ url ++ ": " ++ e)], none)
      | Except.ok analysis =>
          ([Event.fetchCall url, Event.analyzeCall document_text], some analysis)

/-- The inner loop of process_batch over one batch: batch_results
accumulates the successful analyses in input order, failed URLs are
skipped. -/
def processBatchUrls (A : Agent) : List String → List Event × List String
  | [] => ([], [])
  | url :: rest =>
      let r := processUrl A url
      let rs := processBatchUrls A rest
      match r.2 with
      | none => (r.1 ++ rs.1, rs.2)
      | some analysis => (r.1 ++ rs.1, analysis :: rs.2)

/-- The outer loop of process_batch over the list of batches: when a
batch produced at least one result, find_connections runs once on its
batch_results and a findings entry is appended. -/
def processBatches (A : Agent) : List (List String) → List Event × List Finding
  | [] => ([], [])
  | batch :: rest =>
      let br := processBatchUrls A batch
      let tail := processBatches A rest
      if br.2.isEmpty then
        (br.1 ++ tail.1, tail.2)
      else
        (br.1 ++ [Event.findConnectionsCall br.2] ++ tail.1,
         { batch_results := br.2, connections := find_connections A br.2 } :: tail.2)

/-- Shallow embedding of process_batch: partition into batches, run
every batch, then either generate the final report or return the
error dict when no findings were accumulated.  The first component is
the trace of collaborator calls. -/
def process_batch (A : Agent) (pdf_urls : List String) : List Event × PyVal :=
  let run := processBatches A (batches pdf_urls)
  if run.2.isEmpty then
    (run.1, PyVal.errorDict "No documents were successfully processed")
  else
    (run.1 ++ [Event.generateReportCall run.2],
     PyVal.reportStr (generate_report A run.2))

/-- The fetch-then-analyze pipeline for one URL as a value: ok carries
the analysis appended to batch_results, error carries the exception
message printed by the except clause. -/
def pipeline (A : Agent) (url : String) : Except String String :=
  match A.fetch url with
  | Except.error e => Except.error e
  | Except.ok document_text => A.analyze document_text

/-- The batch_results list one batch produces: the successful analyses
of its URLs, in input order. -/
def successfulResults (A : Agent) (batch : List String) : List String :=
  batch.filterMap (fun url => (pipeline A url).toOption)

/-- The findings list accumulated over a list of batches: one entry
per batch with at least one successful document. -/
def findingsOf (A : Agent) (bs : List (List String)) : List Finding :=
  bs.filterMap (fun b =>
    if (successfulResults A b).isEmpty then none
    else some { batch_results := successfulResults A b,
                connections := find_connections A (successfulResults A b) })

/-- The findings list process_batch accumulates for a URL list. -/
def findingsList (A : Agent) (pdf_urls : List String) : List Finding :=
  findingsOf A (batches pdf_urls)

theorem processUrl_snd (A : Agent) (url : String) :
    (processUrl A url).2 = (pipeline A url).toOption := by
  rcases h : A.fetch url with e | t
  · simp [processUrl, pipeline, h, Except.toOption]
  · rcases h2 : A.analyze t with e2 | a <;>
      simp [processUrl, pipeline, h, h2, Except.toOption]

theorem processUrl_events_plain (A : Agent) (url : String) :
    ∀ ev ∈ (processUrl A url).1,
      ev.isFindConnectionsCall = false ∧ ev.isGenerateReportCall = false := by
  intro ev hev
  rcases h : A.fetch url with e | t
  · simp only [processUrl, h, List.mem_cons, List.not_mem_nil, or_false] at hev
    rcases hev with rfl | rfl <;> exact ⟨rfl, rfl⟩
  · rcases h2 : A.analyze t with e2 | a <;>
      simp only [processUrl, h, h2, List.mem_cons, List.not_mem_nil, or_false] at hev
    · rcases hev with rfl | rfl | rfl <;> exact ⟨rfl, rfl⟩
    · rcases hev with rfl | rfl <;> exact ⟨rfl, rfl⟩

theorem processBatchUrls_cons (A : Agent) (url : String) (rest : List String) :
    processBatchUrls A (url :: rest)
      = ((processUrl A url).1 ++ (processBatchUrls A rest).1,
         match (processUrl A url).2 with
         | none => (processBatchUrls A rest).2
         | some analysis => analysis :: (processBatchUrls A rest).2) := by
  simp only [processBatchUrls]
  rcases h : (processUrl A url).2 with - | a <;> simp [h]

theorem processBatchUrls_events_plain (A : Agent) (b : List String) :
    ∀ ev ∈ (processBatchUrls A b).1,
      ev.isFindConnectionsCall = false ∧ ev.isGenerateReportCall = false := by
  induction b with
  | nil => intro ev hev; cases hev
  | cons url rest ih =>
    intro ev hev
    rw [processBatchUrls_cons] at hev
    simp only [List.mem_append] at hev
    rcases hev with hev | hev
    · exact processUrl_events_plain A url ev hev
    · exact ih ev hev

theorem processBatchUrls_snd (A : Agent) (b : List String) :
    (processBatchUrls A b).2 = successfulResults A b := by
  induction b with
  | nil => rfl
  | cons url rest ih =>
    rw [processBatchUrls_cons]
    rcases h : (pipeline A url).toOption with - | a
    · have h2 : (processUrl A url).2 = none := by rw [processUrl_snd, h]
      simp [successfulResults, List.filterMap_cons, h, h2, ih]
    · have h2 : (processUrl A url).2 = some a := by rw [processUrl_snd, h]
      simp [successfulResults, List.filterMap_cons, h, h2, ih]

theorem processBatches_cons (A : Agent) (batch : List String) (rest : List (List String)) :
    processBatches A (batch :: rest)
      = (if (processBatchUrls A batch).2.isEmpty then
           ((processBatchUrls A batch).1 ++ (processBatches A rest).1,
            (processBatches A rest).2)
         else
           ((processBatchUrls A batch).1
              ++ [Event.findConnectionsCall (processBatchUrls A batch).2]
              ++ (processBatches A rest).1,
            { batch_results := (processBatchUrls A batch).2,
              connections := find_connections A (processBatchUrls A batch).2 }
              :: (processBatches A rest).2)) := by
  simp only [processBatches]

theorem processBatches_snd (A : Agent) (bs : List (List String)) :
    (processBatches A bs).2 = findingsOf A bs := by
  induction bs with
  | nil => rfl
  | cons b rest ih =>
    rw [processBatches_cons, processBatchUrls_snd]
    by_cases h : successfulResults A b = [] <;>
      simp [findingsOf, List.filterMap_cons, h, ih]

theorem processBatchUrls_filter_findConn (A : Agent) (b : List String) :
    (processBatchUrls A b).1.filter Event.isFindConnectionsCall = [] := by
  rw [List.filter_eq_nil_iff]
  intro ev hev
  have h := (processBatchUrls_events_plain A b ev hev).1
  simp [h]

theorem processBatchUrls_filter_genReport (A : Agent) (b : List String) :
    (processBatchUrls A b).1.filter Event.isGenerateReportCall = [] := by
  rw [List.filter_eq_nil_iff]
  intro ev hev
  have h := (processBatchUrls_events_plain A b ev hev).2
  simp [h]

theorem processBatches_filter_findConn (A : Agent) (bs : List (List String)) :
    (processBatches A bs).1.filter Event.isFindConnectionsCall
      = bs.filterMap (fun b =>
          if (successfulResults A b).isEmpty then none
          else some (Event.findConnectionsCall (successfulResults A b))) := by
  induction bs with
  | nil => rfl
  | cons b rest ih =>
    rw [processBatches_cons, processBatchUrls_snd]
    by_cases h : successfulResults A b = [] <;>
      simp [h, List.filter_append, List.filterMap_cons,
        processBatchUrls_filter_findConn, ih, Event.isFindConnectionsCall]

theorem processBatches_filter_genReport (A : Agent) (bs : List (List String)) :
    (processBatches A bs).1.filter Event.isGenerateReportCall = [] := by
  induction bs with
  | nil => rfl
  | cons b rest ih =>
    rw [processBatches_cons]
    by_cases h : (processBatchUrls A b).2 = [] <;>
      simp [h, List.filter_append,
        processBatchUrls_filter_genReport, ih, Event.isGenerateReportCall]

theorem length_findingsOf (A : Agent) (bs : List (List String)) :
    (findingsOf A bs).length
      = bs.countP (fun b => !(successfulResults A b).isEmpty) := by
  induction bs with
  | nil => rfl
  | cons b rest ih =>
    unfold findingsOf at ih ⊢
    rw [List.filterMap_cons, List.countP_cons]
    by_cases h : successfulResults A b = [] <;> simp [h] at ih ⊢ <;> omega

/-- A concrete agent used to evaluate the claim theorems on concrete
inputs: the URL bad fails at fetch, the URL poison fetches but fails
analysis, and every other URL succeeds end to end. -/
def testAgent : Agent where
  fetch := fun url =>
    if url = "bad" then Except.error "corrupt" else Except.ok ("text of " ++ url)
  analyze := fun text =>
    if text = "text of poison" then Except.error "llm refused"
    else Except.ok ("analysis of " ++ text)
  agentRun := fun prompt => "agent reply: " ++ prompt
  reportChain := fun findings_str => "final report: " ++ findings_str
  strFinding := fun f => f.connections

/-- Claim C1: process_batch partitions its input list of n URLs into
ceil(n/3) batches (the count (n + 2) / 3 is pinned as the least k with
n ≤ 3 * k), each of size at most 3, in the original input order, and
the concatenation of the batches equals the original list. -/
theorem batch_partition (urls : List String) :
    (batches urls).length = (urls.length + 2) / 3 ∧
    urls.length ≤ 3 * (batches urls).length ∧
    3 * (batches urls).length < urls.length + 3 ∧
    ((batches urls).all fun b => decide (b.length ≤ 3)) = true ∧
    (batches urls).flatten = urls := by
  refine ⟨length_batches urls, ?_, ?_, ?_, join_batches urls⟩
  · rw [length_batches]; omega
  · rw [length_batches]; omega
  · simp only [List.all_eq_true, decide_eq_true_eq]
    exact batch_length_le urls

/-- Claim C2: when the fetch-analyze pipeline fails for every input
URL, process_batch returns the error dict value (it does not raise)
and its trace contains no find_connections call and no
generate_report call. -/
theorem process_batch_all_fail (A : Agent) (urls : List String)
    (h : ∀ url ∈ urls, (pipeline A url).toOption = none) :
    (process_batch A urls).2 = PyVal.errorDict "No documents were successfully processed" ∧
    (process_batch A urls).1.filter Event.isFindConnectionsCall = [] ∧
    (process_batch A urls).1.filter Event.isGenerateReportCall = [] := by
  have hb : ∀ b ∈ batches urls, successfulResults A b = [] := by
    intro b hbmem
    unfold successfulResults
    rw [List.filterMap_eq_nil_iff]
    intro url hu
    exact h url (by rw [← join_batches urls]; exact List.mem_flatten.mpr ⟨b, hbmem, hu⟩)
  have hsnd : (processBatches A (batches urls)).2 = [] := by
    rw [processBatches_snd]
    unfold findingsOf
    rw [List.filterMap_eq_nil_iff]
    intro b hbmem
    simp [hb b hbmem]
  refine ⟨by simp [process_batch, hsnd], ?_, ?_⟩
  · simp only [process_batch, hsnd, List.isEmpty_nil, if_true]
    rw [processBatches_filter_findConn, List.filterMap_eq_nil_iff]
    intro b hbmem
    simp [hb b hbmem]
  · simp only [process_batch, hsnd, List.isEmpty_nil, if_true]
    exact processBatches_filter_genReport A (batches urls)

/-- Claim C3: when at least one URL across all batches succeeds,
generate_report is called exactly once, on the accumulated findings
list, whose length is the number of batches that produced at least one
successful document, and its result is returned verbatim as the final
output. -/
theorem process_batch_report (A : Agent) (urls : List String)
    (h : ∃ url, url ∈ urls ∧ (pipeline A url).toOption ≠ none) :
    (process_batch A urls).1.filter Event.isGenerateReportCall
        = [Event.generateReportCall (findingsList A urls)] ∧
    (process_batch A urls).2
        = PyVal.reportStr (generate_report A (findingsList A urls)) ∧
    (findingsList A urls).length
        = (batches urls).countP (fun b => !(successfulResults A b).isEmpty) := by
  obtain ⟨url, hu, hne⟩ := h
  obtain ⟨a, ha⟩ : ∃ a, (pipeline A url).toOption = some a := by
    cases hp : (pipeline A url).toOption with
    | none => exact absurd hp hne
    | some a => exact ⟨a, rfl⟩
  have hub : url ∈ (batches urls).flatten := by rw [join_batches]; exact hu
  obtain ⟨b, hbmem, hmem⟩ := List.mem_flatten.mp hub
  have hres : a ∈ successfulResults A b := List.mem_filterMap.mpr ⟨url, hmem, ha⟩
  have hbne : successfulResults A b ≠ [] := List.ne_nil_of_mem hres
  have hfmem : Finding.mk (successfulResults A b)
        (find_connections A (successfulResults A b))
      ∈ findingsOf A (batches urls) := by
    refine List.mem_filterMap.mpr ⟨b, hbmem, ?_⟩
    simp [hbne]
  have hne2 : findingsOf A (batches urls) ≠ [] := List.ne_nil_of_mem hfmem
  have hsnd : (processBatches A (batches urls)).2 = findingsOf A (batches urls) :=
    processBatches_snd A (batches urls)
  refine ⟨?_, ?_, ?_⟩
  · simp [process_batch, hsnd, hne2, List.filter_append,
      processBatches_filter_genReport, findingsList, Event.isGenerateReportCall]
  · simp [process_batch, hsnd, hne2, findingsList]
  · rw [findingsList, length_findingsOf]

/-- Claim C4: an exception in the fetch-analyze pipeline for one URL
aborts only that URL: its document never enters the batch results, the
diagnostic line is printed, and the loop continues with the remaining
URLs of the batch, whose processing is unchanged. -/
theorem per_url_failure (A : Agent) (url e : String) (rest : List String)
    (h : pipeline A url = Except.error e) :
    (processBatchUrls A (url :: rest)).2 = (processBatchUrls A rest).2 ∧
    Event.printLine ("Error processing document " ++ url ++ ": " ++ e)
        ∈ (processBatchUrls A (url :: rest)).1 ∧
    (processBatchUrls A (url :: rest)).1
        = (processUrl A url).1 ++ (processBatchUrls A rest).1 := by
  have h2 : (processUrl A url).2 = none := by
    rw [processUrl_snd, h]; rfl
  have hprint : Event.printLine ("Error processing document " ++ url ++ ": " ++ e)
      ∈ (processUrl A url).1 := by
    unfold pipeline at h
    rcases hf : A.fetch url with e0 | t
    · rw [hf] at h
      injection h with h
      subst h
      simp [processUrl, hf]
    · have ha : A.analyze t = Except.error e := by
        rw [hf] at h
        simpa using h
      simp [processUrl, hf, ha]
  rw [processBatchUrls_cons]
  exact ⟨by simp [h2], by simpa using Or.inl hprint, by simp⟩

/-- Claim C5 counterexample: an HTTP response with status 201 is a 2xx
success response, yet fetch_pdf raises the fetch failure exception for
it, refuting failure exactly on non-2xx status. -/
theorem fetch_pdf_2xx_counterexample :
    (200 ≤ 201 ∧ 201 < 300) ∧
    fetch_pdf (fun _ => { status := 201, body := [] })
        (fun _ => (Except.ok { pages := [] } : Except String (PdfReader Unit)))
        (fun _ => "") "u"
      = Except.error (FetchErr.fetchFailed "u") :=
  ⟨by omega, rfl⟩

/-- Claim C5 (amended): fetch_pdf raises the fetch failure exception
exactly when the HTTP response status is not 200; for a status-200
response it proceeds to extraction without raising a fetch error. -/
theorem fetch_pdf_fetch_error_iff {Page : Type} (httpGet : String → HttpResponse)
    (pdfReaderOf : List Nat → Except String (PdfReader Page))
    (extract_text : Page → String) (url : String) :
    (fetch_pdf httpGet pdfReaderOf extract_text url
        = Except.error (FetchErr.fetchFailed url))
      ↔ (httpGet url).status ≠ 200 := by
  by_cases h : (httpGet url).status = 200
  · rcases hp : pdfReaderOf (httpGet url).body with e | r <;>
      simp [fetch_pdf, h, hp]
  · simp [fetch_pdf, h]

/-- Claim C6: across a process_batch run, find_connections is called
exactly once per batch with at least one successful document, in batch
order, receiving that batch's successful analyses in input order; and
find_connections hands the agent those results joined by the
blank-line separator. -/
theorem connection_finder_calls (A : Agent) (urls : List String) :
    (process_batch A urls).1.filter Event.isFindConnectionsCall
      = (batches urls).filterMap (fun b =>
          if (successfulResults A b).isEmpty then none
          else some (Event.findConnectionsCall (successfulResults A b))) ∧
    ∀ documents : List String,
      find_connections A documents
        = A.agentRun
            ("Analyze these documents and identify connections, patterns, and relationships between them: "
              ++ String.intercalate "\n\n" documents) := by
  refine ⟨?_, fun documents => rfl⟩
  by_cases hn : (processBatches A (batches urls)).2 = []
  · simp only [process_batch, hn, List.isEmpty_nil, if_true]
    exact processBatches_filter_findConn A (batches urls)
  · simp only [process_batch]
    rw [if_neg (by simpa using hn)]
    rw [List.filter_append, processBatches_filter_findConn]
    simp [Event.isFindConnectionsCall]

/-- Claim C7: when the PDF parse fails, fetch_pdf raises the
extraction failure wrapping the underlying error, and the raised
message contains the stringified original error as a suffix. -/
theorem extraction_error_preserves_detail {Page : Type}
    (httpGet : String → HttpResponse)
    (pdfReaderOf : List Nat → Except String (PdfReader Page))
    (extract_text : Page → String) (url e : String)
    (hstatus : (httpGet url).status = 200)
    (hparse : pdfReaderOf (httpGet url).body = Except.error e) :
    fetch_pdf httpGet pdfReaderOf extract_text url
        = Except.error (FetchErr.extractFailed e) ∧
    ∃ before, (FetchErr.extractFailed e).message = before ++ e :=
  ⟨by simp [fetch_pdf, hstatus, hparse],
   ⟨"Failed to extract text from PDF: ", rfl⟩⟩

/-- Claim C8: on a successful parse, fetch_pdf returns the page texts
concatenated in document order with no separator; a PDF with zero
pages yields the empty string. -/
theorem extractor_concatenates {Page : Type}
    (httpGet : String → HttpResponse)
    (pdfReaderOf : List Nat → Except String (PdfReader Page))
    (extract_text : Page → String) (url : String) (reader : PdfReader Page)
    (hstatus : (httpGet url).status = 200)
    (hparse : pdfReaderOf (httpGet url).body = Except.ok reader) :
    fetch_pdf httpGet pdfReaderOf extract_text url
        = Except.ok (String.join (reader.pages.map extract_text)) ∧
    (reader.pages = [] →
      fetch_pdf httpGet pdfReaderOf extract_text url = Except.ok "") := by
  have hfold : reader.pages.foldl (fun text page => text ++ extract_text page) ""
      = String.join (reader.pages.map extract_text) := by
    simp [String.join, List.foldl_map]
  constructor
  · simp [fetch_pdf, hstatus, hparse, hfold]
  · intro hnil
    simp [fetch_pdf, hstatus, hparse, hnil]

/-- Claim C9: the InvestigativeAgent constructor credential check
fails exactly when OPENROUTER_API_KEY is absent from the environment
or empty; with a non-empty key present it does not fail. -/
theorem init_api_key_check (getenv : String → Option String) :
    (∃ msg, initApiKey getenv = Except.error msg)
      ↔ (getenv "OPENROUTER_API_KEY" = none
          ∨ getenv "OPENROUTER_API_KEY" = some "") := by
  cases h : getenv "OPENROUTER_API_KEY" with
  | none => simp [initApiKey, h, pyTruthy]
  | some s => by_cases hs : s = "" <;> simp [initApiKey, h, pyTruthy, hs]

/-- Claim C10: on the empty URL list process_batch returns the error
dict and its trace is empty, so no fetch, analysis,
connection-finding or report-generation call is performed. -/
theorem process_batch_empty (A : Agent) :
    process_batch A ([] : List String)
      = ([], PyVal.errorDict "No documents were successfully processed") := by
  simp [process_batch, batches_nil, processBatches]

/-- Witness for claim C2 at a concrete input: both failure modes, a
fetch failure and an analysis failure, in one run. -/
theorem process_batch_all_fail_witness :
    (process_batch testAgent ["bad", "poison"]).2
        = PyVal.errorDict "No documents were successfully processed" ∧
    (process_batch testAgent ["bad", "poison"]).1.filter Event.isFindConnectionsCall = [] ∧
    (process_batch testAgent ["bad", "poison"]).1.filter Event.isGenerateReportCall = [] :=
  process_batch_all_fail testAgent ["bad", "poison"] (by decide)

/-- Witness for claim C3 at a concrete input with one success. -/
theorem process_batch_report_witness :
    (process_batch testAgent ["good", "bad"]).1.filter Event.isGenerateReportCall
        = [Event.generateReportCall (findingsList testAgent ["good", "bad"])] ∧
    (process_batch testAgent ["good", "bad"]).2
        = PyVal.reportStr (generate_report testAgent (findingsList testAgent ["good", "bad"])) ∧
    (findingsList testAgent ["good", "bad"]).length
        = (batches ["good", "bad"]).countP
            (fun b => !(successfulResults testAgent b).isEmpty) :=
  process_batch_report testAgent ["good", "bad"] ⟨"good", by decide, by decide⟩

/-- Witness for claim C4 at a concrete input: the URL bad fails, the
URL good after it is processed unchanged. -/
theorem per_url_failure_witness :
    (processBatchUrls testAgent ["bad", "good"]).2
        = (processBatchUrls testAgent ["good"]).2 ∧
    Event.printLine ("Error processing document " ++ "bad" ++ ": " ++ "corrupt")
        ∈ (processBatchUrls testAgent ["bad", "good"]).1 ∧
    (processBatchUrls testAgent ["bad", "good"]).1
        = (processUrl testAgent "bad").1 ++ (processBatchUrls testAgent ["good"]).1 :=
  per_url_failure testAgent "bad" "corrupt" ["good"] rfl

/-- Witness for claim C7 at a concrete input: a 200 response whose
body fails to parse with detail bad xref. -/
theorem extraction_error_witness :
    fetch_pdf (fun _ => { status := 200, body := [] })
        (fun _ => (Except.error "bad xref" : Except String (PdfReader Unit)))
        (fun _ => "") "u"
      = Except.error (FetchErr.extractFailed "bad xref") ∧
    ∃ before, (FetchErr.extractFailed "bad xref").message = before ++ "bad xref" :=
  extraction_error_preserves_detail (fun _ => { status := 200, body := [] })
    (fun _ => (Except.error "bad xref" : Except String (PdfReader Unit)))
    (fun _ => "") "u" "bad xref" rfl rfl

/-- Witness for claim C8 at concrete inputs: a two-page document
concatenates with no separator, a zero-page document yields the empty
string. -/
theorem extractor_witness :
    fetch_pdf (fun _ => { status := 200, body := [] })
        (fun _ => (Except.ok { pages := ["page one ", "page two"] }
          : Except String (PdfReader String)))
        (fun p => p) "u"
      = Except.ok (String.join (List.map (fun p => p) ["page one ", "page two"])) ∧
    (([] : List String) = [] →
      fetch_pdf (fun _ => { status := 200, body := [] })
          (fun _ => (Except.ok { pages := [] } : Except String (PdfReader String)))
          (fun p => p) "u" = Except.ok "") :=
  ⟨(extractor_concatenates (fun _ => { status := 200, body := [] })
      (fun _ => (Except.ok { pages := ["page one ", "page two"] }
        : Except String (PdfReader String)))
      (fun p => p) "u" { pages := ["page one ", "page two"] } rfl rfl).1,
   (extractor_concatenates (fun _ => { status := 200, body := [] })
      (fun _ => (Except.ok { pages := [] } : Except String (PdfReader String)))
      (fun p => p) "u" { pages := [] } rfl rfl).2⟩

end Investigator
